import Mathlib

/-!
Verification development for the `odoo-delivery-cost-calculator` module.

Shallow embedding of the module's Python sources:
  * `src/models/res_partner.py`   — distance engine, validator, geocoding workflow
  * `src/models/sale_order.py`    — order-line pricing lifecycle
  * `src/models/delivery_carrier.py` — checkout shipping-method availability
  * `src/models/res_config_settings.py` — persisted configuration keys

Modelling conventions:
  * Python floats are modelled as exact reals (`ℝ`).  Odoo `Float` fields are
    never `None`; an unset coordinate reads as `0.0`, so Python truthiness
    `not self.partner_latitude` is modelled as `partner_latitude = 0`.
  * Exceptions are modelled with `Except`; code whose every exception path is
    caught in the source is modelled as a total function.
  * `calculate_distance_from_origin` returns the Python tuple
    `(distance, calculation_method)`.  Its callers bind that tuple to a single
    variable and use it as a number; the dynamic-typing consequences
    (`tuple * float` and `format(tuple, '.2f')` raise `TypeError`) are
    modelled by the small `PyVal` layer below.
  * External collaborators (geocoder, Google routing API) are oracles passed
    as explicit arguments.
-/

namespace DeliveryCalc

/-- Python dynamic values flowing out of `calculate_distance_from_origin`:
either a bare float or the `(distance, method)` 2-tuple. -/
inductive PyVal where
  | float (x : ℝ)
  | tuple2 (x : ℝ) (m : String)

inductive PyErr where
  | typeError
deriving DecidableEq

/-- Python `v * r` where `r` is known to be a float
(`rate_per_mile` comes from `float(ICP.get_param(...))`).
A tuple multiplied by a float raises `TypeError`. -/
def pyMulFloat : PyVal → ℝ → Except PyErr ℝ
  | .float a, r => .ok (a * r)
  | .tuple2 _ _, _ => .error .typeError

/-- Python `f"{v:.2f}"`; formatting a tuple with a float format spec raises
`TypeError`.  The produced text is irrelevant to every claim, only
success/failure is modelled. -/
def pyFormat2f : PyVal → Except PyErr Unit
  | .float _ => .ok ()
  | .tuple2 _ _ => .error .typeError

/-- Python `v > r` with `r` a float; tuples do not compare with floats. -/
noncomputable def pyGtFloat : PyVal → ℝ → Except PyErr Bool
  | .float a, r => .ok (if r < a then true else false)
  | .tuple2 _ _, _ => .error .typeError

/-- Binding the tuple returned by `calculate_distance_from_origin`
to a single Python variable. -/
def asPy (dm : ℝ × String) : PyVal := .tuple2 dm.1 dm.2

/-! ## Persisted configuration (`res_config_settings.py`)

Field defaults are the `default=` values of the `config_parameter` fields. -/

structure ConfigStore where
  origin_latitude : ℝ := 38.48358903556404
  origin_longitude : ℝ := -82.7803864690895
  rate_per_mile : ℝ := 2.5
  max_distance : ℝ := 75.0
  max_order_quantity : ℤ := 8
  gps_carrier_max_distance : ℝ := 60.0
  road_multiplier : ℝ := 1.3
  google_api_key : String := ""
  use_google_maps : Bool := false

def defaultCfg : ConfigStore := {}

/-! ## `res_partner.py` -/

/-- `DEFAULT_*` module constants of `res_partner.py`. -/
def EARTH_RADIUS_MILES : ℝ := 3959

/-- The settings dictionary assembled by `ResPartner._get_delivery_settings`
(it reads exactly these seven parameters; the carrier-specific keys are
*not* among them). -/
structure DeliverySettings where
  origin_lat : ℝ
  origin_lon : ℝ
  rate_per_mile : ℝ
  max_distance : ℝ
  road_multiplier : ℝ
  google_api_key : String
  use_google_maps : Bool

def _get_delivery_settings (cfg : ConfigStore) : DeliverySettings :=
  { origin_lat := cfg.origin_latitude
    origin_lon := cfg.origin_longitude
    rate_per_mile := cfg.rate_per_mile
    max_distance := cfg.max_distance
    road_multiplier := cfg.road_multiplier
    google_api_key := cfg.google_api_key
    use_google_maps := cfg.use_google_maps }

/-- `math.radians`. -/
noncomputable def radians (d : ℝ) : ℝ := d * (Real.pi / 180)

/-- The intermediate `a` of `ResPartner._haversine_distance`
(`sin²(Δlat/2) + cos(lat1)·cos(lat2)·sin²(Δlon/2)`).  The source takes
`math.sqrt` of this value with **no clamping**. -/
noncomputable def haversineH (lat1 lon1 lat2 lon2 : ℝ) : ℝ :=
  Real.sin (radians (lat2 - lat1) / 2) ^ 2 +
    Real.cos (radians lat1) * Real.cos (radians lat2) *
      Real.sin (radians (lon2 - lon1) / 2) ^ 2

/-- `ResPartner._haversine_distance`: `d = R · 2 · asin(√a)`, unclamped. -/
noncomputable def _haversine_distance (lat1 lon1 lat2 lon2 : ℝ) : ℝ :=
  EARTH_RADIUS_MILES * (2 * Real.arcsin (Real.sqrt (haversineH lat1 lon1 lat2 lon2)))

/-- The clamped intermediate the specification prescribes
(`√clamp(h,0,1)` before `asin`). -/
noncomputable def clampedH (lat1 lon1 lat2 lon2 : ℝ) : ℝ :=
  min 1 (max 0 (haversineH lat1 lon1 lat2 lon2))

inductive ValidationError where
  | zeroOrEmpty
  | impossiblyLarge
  | latOutOfRange
  | lonOutOfRange
deriving Repr, DecidableEq

/-- `ResPartner._validate_coordinates`.  Python truthiness: `not lat` holds
exactly when the float is `0.0` (an unset Odoo float field also reads `0.0`). -/
noncomputable def _validate_coordinates (lat lon : ℝ) : Option ValidationError :=
  if lat = 0 ∨ lon = 0 ∨ (lat = 0 ∧ lon = 0) then some .zeroOrEmpty
  else if 1000 < |lat| ∨ 1000 < |lon| then some .impossiblyLarge
  else if ¬(-90 ≤ lat ∧ lat ≤ 90) then some .latOutOfRange
  else if ¬(-180 ≤ lon ∧ lon ≤ 180) then some .lonOutOfRange
  else none

/-- Outcome of the Google Distance Matrix HTTP interaction, as observed by
`_get_google_maps_distance`'s `try` block. -/
inductive RoutingOutcome where
  | requestFailed                                    -- network error / timeout / non-2xx
  | malformed                                        -- JSON decode error or missing keys
  | response (status elemStatus : String) (meters : ℝ)

/-- `ResPartner._get_google_maps_distance`.  Every exception path in the
source is caught and falls back to Haversine × road multiplier, so the
embedding is a total function. -/
noncomputable def _get_google_maps_distance (cfg : ConfigStore) (r : RoutingOutcome)
    (origin_lat origin_lon dest_lat dest_lon : ℝ) : ℝ :=
  let settings := _get_delivery_settings cfg
  if settings.google_api_key = "" then
    _haversine_distance origin_lat origin_lon dest_lat dest_lon * settings.road_multiplier
  else
    match r with
    | .requestFailed =>
        _haversine_distance origin_lat origin_lon dest_lat dest_lon * settings.road_multiplier
    | .malformed =>
        _haversine_distance origin_lat origin_lon dest_lat dest_lon * settings.road_multiplier
    | .response status elemStatus meters =>
        if status = "OK" then
          if elemStatus = "OK" then
            meters * 0.000621371
          else
            _haversine_distance origin_lat origin_lon dest_lat dest_lon * settings.road_multiplier
        else
          _haversine_distance origin_lat origin_lon dest_lat dest_lon * settings.road_multiplier

/-- Customer record: the fields of `res.partner` this module reads or could
write.  `x_partner_distance` is the legacy field (`res_partner.py` declares it
and, despite its own docstring, never writes it). -/
structure Partner where
  pname : String
  street : String
  city : String
  zipCode : String
  partner_latitude : ℝ
  partner_longitude : ℝ
  x_partner_distance : ℝ

/-- Behaviour of the external geocoder (`geo_localize`). -/
inductive GeoOracle where
  | raises                       -- geo_localize raised
  | noFix                        -- returned without writing coordinates
  | fix (lat lon : ℝ)            -- wrote these coordinates to the partner

/-- Typed stand-ins for the `UserError`s raised by the module. -/
inductive UserError where
  | geocodingFailed (partnerName : String)
  | invalidCoordinates (err : ValidationError) (lat lon : ℝ)
  | calcFailed (partnerName : String)
  | outOfRange (distance maxDistance : ℝ)
  | unexpectedOnchange
  | noCustomer
  | noDeliveryLine

/-- Steps 1–2 of `calculate_distance_from_origin`: ensure coordinates exist,
attempting `geo_localize` when either is missing/zero.  Returns the outcome
together with the partner state afterwards (geocoding mutates the partner).
The inner `raise UserError` for a failed geocode is itself inside the
`try/except Exception` block and gets re-wrapped; both wrappings are
modelled as `geocodingFailed`. -/
noncomputable def ensureCoords (g : GeoOracle) (p : Partner) :
    Except UserError Partner × Partner :=
  if p.partner_latitude = 0 ∨ p.partner_longitude = 0 then
    match g with
    | .raises => (.error (.geocodingFailed p.pname), p)
    | .noFix =>
        -- geo_localize wrote nothing: the re-check still sees missing coordinates
        (.error (.geocodingFailed p.pname), p)
    | .fix la lo =>
        let p' := { p with partner_latitude := la, partner_longitude := lo }
        if la = 0 ∨ lo = 0 then (.error (.geocodingFailed p.pname), p')
        else (.ok p', p')
  else (.ok p, p)

/-- Lines 268–297 of `res_partner.py`: pick Google Maps or Haversine × road
multiplier, remembering which method was used. -/
noncomputable def computeDistanceAndMethod (cfg : ConfigStore) (r : RoutingOutcome)
    (dest_lat dest_lon : ℝ) : ℝ × String :=
  let settings := _get_delivery_settings cfg
  if settings.use_google_maps then
    (_get_google_maps_distance cfg r settings.origin_lat settings.origin_lon dest_lat dest_lon,
      "google_maps")
  else
    (_haversine_distance settings.origin_lat settings.origin_lon dest_lat dest_lon *
        settings.road_multiplier,
      "haversine")

/-- `ResPartner.calculate_distance_from_origin`.  Returns the raised
`UserError` or the `(distance, calculation_method)` tuple of line 329,
paired with the partner state afterwards (the only mutation is the
geocoding step).  The `try/except` around the distance computation
(line 298) is unreachable in exact arithmetic: `computeDistanceAndMethod`
is total. -/
noncomputable def calculate_distance_from_origin (cfg : ConfigStore) (g : GeoOracle)
    (r : RoutingOutcome) (p : Partner) :
    Except UserError (ℝ × String) × Partner :=
  match ensureCoords g p with
  | (.error e, p₁) => (.error e, p₁)
  | (.ok _, p₁) =>
    match _validate_coordinates p₁.partner_latitude p₁.partner_longitude with
    | some verr =>
        (.error (.invalidCoordinates verr p₁.partner_latitude p₁.partner_longitude), p₁)
    | none =>
      let settings := _get_delivery_settings cfg
      let dm := computeDistanceAndMethod cfg r p₁.partner_latitude p₁.partner_longitude
      if settings.max_distance < dm.1 then
        (.error (.outOfRange dm.1 settings.max_distance), p₁)
      else
        (.ok dm, p₁)

/-! ## `sale_order.py` -/

/-- Python `str.lower()` (ASCII, which is all the module compares). -/
def lowerStr (s : String) : String := String.mk (s.data.map Char.toLower)

/-- Python `str.strip()`. -/
def stripStr (s : String) : String :=
  String.mk (((s.data.dropWhile Char.isWhitespace).reverse.dropWhile Char.isWhitespace).reverse)

/-- `DELIVERY_PRODUCT_NAME` constant of `sale_order.py`. -/
def DELIVERY_PRODUCT_NAME : String := "Delivery"

/-- The product fields `_compute_is_delivery_line` depends on.  An empty
`pname` models a falsy (unset) product name. -/
structure Product where
  ptype : String
  active : Bool
  pname : String

structure SOLine where
  product : Option Product
  price_unit : ℝ
  delivery_cost_calculated : Bool

/-- `SaleOrderLine._compute_is_delivery_line`: product set, active, of type
`service`, with a truthy name whose stripped lowercase equals `delivery`. -/
def is_delivery_line (l : SOLine) : Bool :=
  match l.product with
  | none => false
  | some pr =>
      pr.active && pr.ptype == "service" && !(pr.pname == "") &&
        (lowerStr (stripStr pr.pname) == lowerStr DELIVERY_PRODUCT_NAME)

/-- `SaleOrderLine._get_rate_per_mile`. -/
def _get_rate_per_mile (cfg : ConfigStore) : ℝ := cfg.rate_per_mile

/-- The `warning` dict (or absence of one) returned by the onchange. -/
inductive OnchangeMsg where
  | nothing
  | customerRequired
  | costCalculated
deriving DecidableEq

/-- `SaleOrderLine._onchange_product_delivery_cost`.  On success the source
writes `price_unit` and the flag, then logs `f"...{distance:.2f}..."`; since
`distance` is bound to the `(distance, method)` tuple, both the
multiplication `distance * rate_per_mile` and that format raise `TypeError`,
which the final `except Exception` turns into a `UserError`.  A raised
`UserError` from `calculate_distance_from_origin` is re-raised unchanged. -/
noncomputable def _onchange_product_delivery_cost (cfg : ConfigStore) (g : GeoOracle)
    (r : RoutingOutcome) (partner? : Option Partner) (l : SOLine) :
    Except UserError (SOLine × Option Partner × OnchangeMsg) :=
  if !(is_delivery_line l) || l.delivery_cost_calculated then
    .ok (l, partner?, .nothing)
  else
    match partner? with
    | none => .ok (l, none, .customerRequired)
    | some p =>
      let rate := _get_rate_per_mile cfg
      match calculate_distance_from_origin cfg g r p with
      | (.error e, _) => .error e
      | (.ok dm, p₁) =>
        match pyMulFloat (asPy dm) rate with
        | .error _ => .error .unexpectedOnchange
        | .ok cost =>
          match pyFormat2f (asPy dm) with
          | .error _ => .error .unexpectedOnchange
          | .ok _ =>
              .ok ({ l with price_unit := cost, delivery_cost_calculated := true },
                some p₁, .costCalculated)

/-- Per-line body of the loop in `SaleOrderLine.create` (lines 155–201).
Every exception path is caught and logged, so this is total; the
`line.write` on line 178 precedes the failing f-string, so a (hypothetical)
successful multiplication would persist the write even though the log line
then raises a caught `TypeError`. -/
noncomputable def createLine (cfg : ConfigStore) (g : GeoOracle) (r : RoutingOutcome)
    (partner? : Option Partner) (l : SOLine) : SOLine × Option Partner :=
  if !(is_delivery_line l) || l.delivery_cost_calculated then (l, partner?)
  else
    match partner? with
    | none => (l, partner?)
    | some p =>
      match calculate_distance_from_origin cfg g r p with
      | (.error _, p₁) => (l, some p₁)
      | (.ok dm, p₁) =>
        match pyMulFloat (asPy dm) (_get_rate_per_mile cfg) with
        | .error _ => (l, some p₁)
        | .ok cost => ({ l with price_unit := cost, delivery_cost_calculated := true }, some p₁)

/-- `SaleOrderLine.create`: `super().create(vals_list)` yields the lines,
then each is post-processed; the customer state threads through because
geocoding may mutate it. -/
noncomputable def createLines (cfg : ConfigStore) (g : GeoOracle) (r : RoutingOutcome)
    (partner? : Option Partner) : List SOLine → List SOLine × Option Partner
  | [] => ([], partner?)
  | l :: ls =>
    let (l', p') := createLine cfg g r partner? l
    let (ls', p'') := createLines cfg g r p' ls
    (l' :: ls', p'')

/-- Errors the manual recalculation action can propagate: its
`except Exception: raise` re-raises the original exception, so the
`TypeError` from the tuple multiplication escapes untyped. -/
inductive AppError where
  | user (e : UserError)
  | pyTypeError

/-- Body of the per-delivery-line loop in
`SaleOrder.action_recalculate_delivery_cost` (lines 238–265). -/
noncomputable def recalcLine (cfg : ConfigStore) (g : GeoOracle) (r : RoutingOutcome)
    (p : Partner) (l : SOLine) : Except AppError (SOLine × Partner) :=
  match calculate_distance_from_origin cfg g r p with
  | (.error e, _) => .error (.user e)
  | (.ok dm, p₁) =>
    match pyMulFloat (asPy dm) (_get_rate_per_mile cfg) with
    | .error _ => .error .pyTypeError
    | .ok cost =>
        .ok ({ l with price_unit := cost, delivery_cost_calculated := true }, p₁)

/-- The loop of `action_recalculate_delivery_cost`: delivery lines are
recalculated (no `delivery_cost_calculated` guard — the action is exempt
from the lock), other lines are untouched. -/
noncomputable def recalcFold (cfg : ConfigStore) (g : GeoOracle) (r : RoutingOutcome) :
    List SOLine → Partner → Except AppError (List SOLine × Partner)
  | [], p => .ok ([], p)
  | l :: ls, p =>
    if is_delivery_line l then
      match recalcLine cfg g r p l with
      | .error e => .error e
      | .ok (l', p') =>
        match recalcFold cfg g r ls p' with
        | .error e => .error e
        | .ok (ls', p'') => .ok (l' :: ls', p'')
    else
      match recalcFold cfg g r ls p with
      | .error e => .error e
      | .ok (ls', p') => .ok (l :: ls', p')

/-- `SaleOrder.action_recalculate_delivery_cost`.  The success notification
(lines 268–282) formats `'%.2f' % distance` on the tuple and would itself
raise; it is unreachable because `recalcLine` always fails on at least one
delivery line, which the guard guarantees exists. -/
noncomputable def action_recalculate_delivery_cost (cfg : ConfigStore) (g : GeoOracle)
    (r : RoutingOutcome) (partner? : Option Partner) (lines : List SOLine) :
    Except AppError (List SOLine × Partner) :=
  match partner? with
  | none => .error (.user .noCustomer)
  | some p =>
    match lines.filter is_delivery_line with
    | [] => .error (.user .noDeliveryLine)
    | _ :: _ => recalcFold cfg g r lines p

/-- Transaction-level effect of the manual action: a raised error aborts the
write, leaving the order lines and customer as they were. -/
noncomputable def runRecalc (cfg : ConfigStore) (g : GeoOracle) (r : RoutingOutcome)
    (partner? : Option Partner) (lines : List SOLine) : List SOLine × Option Partner :=
  match action_recalculate_delivery_cost cfg g r partner? lines with
  | .ok (ls', p') => (ls', some p')
  | .error _ => (lines, partner?)

/-! ## `delivery_carrier.py` -/

/-- Module-level constants of `delivery_carrier.py` (lines 9–14).  These are
hard-coded; `gps_rate_shipment` never consults `ir.config_parameter`. -/
def RATE_PER_MILE : ℝ := 3.0

def MAX_DISTANCE_MILES : ℝ := 60.0

def MAX_ORDER_QUANTITY : ℝ := 8

structure CarrierLine where
  ptype : String
  product_uom_qty : ℝ

structure Order where
  partner_id : Option Partner
  partner_shipping_id : Option Partner
  lines : List CarrierLine

/-- `sum(line.product_uom_qty for line in order.order_line if
line.product_id.type in ['product', 'consu'])`. -/
def totalPhysicalQty (o : Order) : ℝ :=
  ((o.lines.filter fun l => l.ptype == "product" || l.ptype == "consu").map
    CarrierLine.product_uom_qty).sum

/-- The `{'success': …}` dict returned by `gps_rate_shipment`. -/
structure RateResult where
  success : Bool
  price : ℝ
  error_message : Option String
  warning_message : Option String

/-- Every rejection path returns this dict: unavailable, no message. -/
def unavailableResult : RateResult :=
  { success := false, price := 0, error_message := none, warning_message := none }

/-- `DeliveryCarrier.gps_rate_shipment`.  The result is paired with the
shipping partner's state (geocoding mutates it).  The `Except PyErr` layer
exposes the two places where an *uncaught* `TypeError` could escape: the
`distance > MAX_DISTANCE_MILES` comparison and `distance * RATE_PER_MILE`
sit outside any `try` (lines 154 and 167) and operate on the tuple; they are
unreachable because the `f"{distance:.2f}"` debug log inside the `try`
(line 137) already raises, landing in the `except` that returns
"unavailable". -/
noncomputable def gps_rate_shipment (cfg : ConfigStore) (g : GeoOracle) (r : RoutingOutcome)
    (o : Order) : Except PyErr (RateResult × Option Partner) :=
  match o.partner_shipping_id.orElse (fun _ => o.partner_id) with
  | none => .ok (unavailableResult, none)
  | some partner =>
    if MAX_ORDER_QUANTITY ≤ totalPhysicalQty o then
      .ok (unavailableResult, some partner)
    else
      -- coordinate check with geocoding attempt (lines 91–129), its
      -- exceptions all caught
      let step : Option Partner :=
        if partner.partner_latitude = 0 ∨ partner.partner_longitude = 0 then
          match g with
          | .raises => none
          | .noFix => none        -- re-check still sees missing coordinates
          | .fix la lo =>
            if la = 0 ∨ lo = 0 then none
            else some { partner with partner_latitude := la, partner_longitude := lo }
        else some partner
      match step with
      | none => .ok (unavailableResult, some partner)
      | some p₁ =>
        match calculate_distance_from_origin cfg g r p₁ with
        | (.error _, p₂) => .ok (unavailableResult, some p₂)
        | (.ok dm, p₂) =>
          match pyFormat2f (asPy dm) with
          | .error _ => .ok (unavailableResult, some p₂)
          | .ok _ =>
            match pyGtFloat (asPy dm) MAX_DISTANCE_MILES with
            | .error e => .error e
            | .ok tooFar =>
              if tooFar then .ok (unavailableResult, some p₂)
              else
                match pyMulFloat (asPy dm) RATE_PER_MILE with
                | .error e => .error e
                | .ok price =>
                    .ok ({ unavailableResult with success := true, price := price }, some p₂)

/-- The availability computation as the specification words it (section 4.5
of the spec): the two checkout ceilings come from the persisted
configuration keys `delivery_cost_calculator.max_order_quantity` and
`delivery_cost_calculator.gps_carrier_max_distance` instead of the
hard-coded module constants.  Used only to compare against the source
behaviour. -/
noncomputable def gps_rate_shipment_specCeilings (cfg : ConfigStore) (g : GeoOracle)
    (r : RoutingOutcome) (o : Order) : Except PyErr (RateResult × Option Partner) :=
  match o.partner_shipping_id.orElse (fun _ => o.partner_id) with
  | none => .ok (unavailableResult, none)
  | some partner =>
    if (cfg.max_order_quantity : ℝ) ≤ totalPhysicalQty o then
      .ok (unavailableResult, some partner)
    else
      let step : Option Partner :=
        if partner.partner_latitude = 0 ∨ partner.partner_longitude = 0 then
          match g with
          | .raises => none
          | .noFix => none
          | .fix la lo =>
            if la = 0 ∨ lo = 0 then none
            else some { partner with partner_latitude := la, partner_longitude := lo }
        else some partner
      match step with
      | none => .ok (unavailableResult, some partner)
      | some p₁ =>
        match calculate_distance_from_origin cfg g r p₁ with
        | (.error _, p₂) => .ok (unavailableResult, some p₂)
        | (.ok dm, p₂) =>
          match pyFormat2f (asPy dm) with
          | .error _ => .ok (unavailableResult, some p₂)
          | .ok _ =>
            match pyGtFloat (asPy dm) cfg.gps_carrier_max_distance with
            | .error e => .error e
            | .ok tooFar =>
              if tooFar then .ok (unavailableResult, some p₂)
              else
                match pyMulFloat (asPy dm) RATE_PER_MILE with
                | .error e => .error e
                | .ok price =>
                    .ok ({ unavailableResult with success := true, price := price }, some p₂)

end DeliveryCalc

namespace DeliveryCalc

/-! ## Helper lemmas -/

lemma pyMulFloat_asPy (dm : ℝ × String) (r : ℝ) :
    pyMulFloat (asPy dm) r = .error .typeError := rfl

lemma pyFormat2f_asPy (dm : ℝ × String) :
    pyFormat2f (asPy dm) = .error .typeError := rfl

lemma haversineH_bounds (lat1 lon1 lat2 lon2 : ℝ) :
    0 ≤ haversineH lat1 lon1 lat2 lon2 ∧ haversineH lat1 lon1 lat2 lon2 ≤ 1 := by
  have hx : radians (lat2 - lat1) / 2 * 2 = radians lat2 - radians lat1 := by
    unfold radians; ring
  have h1 : Real.sin (radians (lat2 - lat1) / 2) ^ 2 =
      1 / 2 - Real.cos (radians lat2 - radians lat1) / 2 := by
    rw [Real.sin_sq_eq_half_sub, mul_comm 2 (radians (lat2 - lat1) / 2), hx]
  set a := radians lat1
  set b := radians lat2
  set s := Real.sin (radians (lon2 - lon1) / 2) ^ 2 with hs
  have hs0 : 0 ≤ s := sq_nonneg _
  have hs1 : s ≤ 1 := Real.sin_sq_le_one _
  have hD : Real.cos (b - a) = Real.cos b * Real.cos a + Real.sin b * Real.sin a :=
    Real.cos_sub b a
  have hS : Real.cos (a + b) = Real.cos a * Real.cos b - Real.sin a * Real.sin b :=
    Real.cos_add a b
  have c1 : Real.cos (b - a) ≤ 1 := Real.cos_le_one _
  have c2 : -1 ≤ Real.cos (b - a) := Real.neg_one_le_cos _
  have c3 : Real.cos (a + b) ≤ 1 := Real.cos_le_one _
  have c4 : -1 ≤ Real.cos (a + b) := Real.neg_one_le_cos _
  unfold haversineH
  rw [h1]
  constructor
  · nlinarith [mul_nonneg (by linarith : (0:ℝ) ≤ 1 - s)
        (by linarith : (0:ℝ) ≤ 1 - Real.cos (b - a)),
      mul_nonneg hs0 (by linarith : (0:ℝ) ≤ 1 + Real.cos (a + b))]
  · nlinarith [mul_nonneg (by linarith : (0:ℝ) ≤ 1 - s)
        (by linarith : (0:ℝ) ≤ 1 + Real.cos (b - a)),
      mul_nonneg hs0 (by linarith : (0:ℝ) ≤ 1 - Real.cos (a + b))]

lemma haversineH_self (lat lon : ℝ) : haversineH lat lon lat lon = 0 := by
  unfold haversineH radians
  simp

/-- C6: in exact arithmetic the unclamped `h` already lies in `[0, 1]` for
*all* real inputs, so `√h ≤ 1` (the `asin` argument stays in its domain),
the distance is nonnegative, and it is `0` for equal coordinates; the
prescribed clamp would be the identity.  The source, however, omits the
clamp entirely (`res_partner.py` lines 425–430), so the protection the claim
describes against floating-point overshoot of `h` above `1` does not exist
in the code. -/
theorem haversine_unclamped_but_total (lat1 lon1 lat2 lon2 : ℝ) :
    0 ≤ haversineH lat1 lon1 lat2 lon2 ∧
    haversineH lat1 lon1 lat2 lon2 ≤ 1 ∧
    clampedH lat1 lon1 lat2 lon2 = haversineH lat1 lon1 lat2 lon2 ∧
    Real.sqrt (haversineH lat1 lon1 lat2 lon2) ≤ 1 ∧
    0 ≤ _haversine_distance lat1 lon1 lat2 lon2 ∧
    _haversine_distance lat1 lon1 lat1 lon1 = 0 := by
  obtain ⟨h0, h1⟩ := haversineH_bounds lat1 lon1 lat2 lon2
  refine ⟨h0, h1, ?_, ?_, ?_, ?_⟩
  · unfold clampedH
    rw [max_eq_right h0, min_eq_right h1]
  · exact Real.sqrt_le_one.mpr h1
  · unfold _haversine_distance
    have : 0 ≤ Real.arcsin (Real.sqrt (haversineH lat1 lon1 lat2 lon2)) :=
      Real.arcsin_nonneg.mpr (Real.sqrt_nonneg _)
    have hR : (0:ℝ) ≤ EARTH_RADIUS_MILES := by norm_num [EARTH_RADIUS_MILES]
    nlinarith
  · unfold _haversine_distance
    rw [haversineH_self]
    simp

/-- C5 (counterexample): a coordinate with latitude `0` and longitude `45`
is *rejected* with the zero/empty error, because Python truthiness
(`not lat`) cannot tell a zero component from a missing one. -/
theorem validator_rejects_zero_lat :
    _validate_coordinates 0 45 = some ValidationError.zeroOrEmpty := by
  simp [_validate_coordinates]

/-- C5 (amended): the checks run in order with first-match short-circuit,
but the zero/empty error fires exactly when *either* component is zero
(equivalently, missing); consequently a coordinate passes validation iff
both components are nonzero and each lies in its valid range (the
impossible-magnitude check is subsumed by the range checks for accepted
coordinates). -/
theorem validator_first_match (lat lon : ℝ) :
    (_validate_coordinates lat lon = some ValidationError.zeroOrEmpty ↔
      lat = 0 ∨ lon = 0) ∧
    (_validate_coordinates lat lon = none ↔
      lat ≠ 0 ∧ lon ≠ 0 ∧ -90 ≤ lat ∧ lat ≤ 90 ∧ -180 ≤ lon ∧ lon ≤ 180) := by
  unfold _validate_coordinates
  by_cases hz : lat = 0 ∨ lon = 0 ∨ (lat = 0 ∧ lon = 0)
  · rw [if_pos hz]
    constructor
    · simp only [Option.some.injEq, true_iff]
      · rcases hz with h | h | ⟨h, _⟩
        · exact Or.inl h
        · exact Or.inr h
        · exact Or.inl h
    · constructor
      · intro h; cases h
      · intro ⟨h1, h2, _⟩
        rcases hz with h | h | ⟨h, _⟩
        · exact absurd h h1
        · exact absurd h h2
        · exact absurd h h1
  · rw [if_neg hz]
    push_neg at hz
    obtain ⟨hlat0, hlon0, _⟩ := hz
    by_cases hm : 1000 < |lat| ∨ 1000 < |lon|
    · rw [if_pos hm]
      constructor
      · constructor
        · intro h; exact absurd (Option.some.inj h) (by intro h'; cases h')
        · intro h
          rcases h with h | h
          · exact absurd h hlat0
          · exact absurd h hlon0
      · constructor
        · intro h; cases h
        · intro ⟨_, _, ha, hb, hc, hd⟩
          rcases hm with h | h
          · have : |lat| ≤ 90 := abs_le.mpr ⟨by linarith, hb⟩
            linarith
          · have : |lon| ≤ 180 := abs_le.mpr ⟨by linarith, hd⟩
            linarith
    · rw [if_neg hm]
      push_neg at hm
      by_cases hla : -90 ≤ lat ∧ lat ≤ 90
      · rw [if_neg (by simpa using hla)]
        by_cases hlo : -180 ≤ lon ∧ lon ≤ 180
        · rw [if_neg (by simpa using hlo)]
          constructor
          · constructor
            · intro h; cases h
            · intro h
              rcases h with h | h
              · exact absurd h hlat0
              · exact absurd h hlon0
          · simp only [true_iff]
            exact ⟨hlat0, hlon0, hla.1, hla.2, hlo.1, hlo.2⟩
        · rw [if_pos (by simpa using hlo)]
          constructor
          · constructor
            · intro h; exact absurd (Option.some.inj h) (by intro h'; cases h')
            · intro h
              rcases h with h | h
              · exact absurd h hlat0
              · exact absurd h hlon0
          · constructor
            · intro h; cases h
            · intro ⟨_, _, _, _, hc, hd⟩
              exact absurd ⟨hc, hd⟩ hlo
      · rw [if_pos (by simpa using hla)]
        constructor
        · constructor
          · intro h; exact absurd (Option.some.inj h) (by intro h'; cases h')
          · intro h
            rcases h with h | h
            · exact absurd h hlat0
            · exact absurd h hlon0
        · constructor
          · intro h; cases h
          · intro ⟨_, _, ha, hb, _, _⟩
            exact absurd ⟨ha, hb⟩ hla

end DeliveryCalc

namespace DeliveryCalc

lemma ensureCoords_frame (g : GeoOracle) (p : Partner) :
    (ensureCoords g p).2.pname = p.pname ∧
    (ensureCoords g p).2.street = p.street ∧
    (ensureCoords g p).2.city = p.city ∧
    (ensureCoords g p).2.zipCode = p.zipCode ∧
    (ensureCoords g p).2.x_partner_distance = p.x_partner_distance := by
  unfold ensureCoords
  by_cases h : p.partner_latitude = 0 ∨ p.partner_longitude = 0
  · rw [if_pos h]
    cases g with
    | raises => simp
    | noFix => simp
    | fix la lo =>
      dsimp only
      split_ifs <;> simp
  · rw [if_neg h]
    simp

lemma ensureCoords_of_present (g : GeoOracle) (p : Partner)
    (h1 : p.partner_latitude ≠ 0) (h2 : p.partner_longitude ≠ 0) :
    ensureCoords g p = (.ok p, p) := by
  unfold ensureCoords
  rw [if_neg]
  intro h
  rcases h with h | h
  · exact h1 h
  · exact h2 h

lemma calculate_partner_eq (cfg : ConfigStore) (g : GeoOracle) (r : RoutingOutcome)
    (p : Partner) :
    (calculate_distance_from_origin cfg g r p).2 = (ensureCoords g p).2 := by
  unfold calculate_distance_from_origin
  rcases he : ensureCoords g p with ⟨exc, p₁⟩
  cases exc with
  | error e => simp [he]
  | ok q =>
    cases hv : _validate_coordinates p₁.partner_latitude p₁.partner_longitude with
    | some verr => simp [he, hv]
    | none =>
      simp only [he, hv]
      split <;> rfl

lemma recalcLine_error (cfg : ConfigStore) (g : GeoOracle) (r : RoutingOutcome)
    (p : Partner) (l : SOLine) :
    ∃ e, recalcLine cfg g r p l = .error e := by
  unfold recalcLine
  rcases hc : calculate_distance_from_origin cfg g r p with ⟨exc, p₁⟩
  cases exc with
  | error e => exact ⟨.user e, rfl⟩
  | ok dm => exact ⟨.pyTypeError, rfl⟩

lemma recalcFold_error (cfg : ConfigStore) (g : GeoOracle) (r : RoutingOutcome) :
    ∀ (ls : List SOLine) (p : Partner),
      (∃ l ∈ ls, is_delivery_line l = true) →
      ∃ e, recalcFold cfg g r ls p = .error e := by
  intro ls
  induction ls with
  | nil =>
    rintro p ⟨l, hl, _⟩
    simp at hl
  | cons x xs ih =>
    rintro p ⟨l, hl, hdel⟩
    by_cases hx : is_delivery_line x
    · obtain ⟨e, he⟩ := recalcLine_error cfg g r p x
      exact ⟨e, by simp [recalcFold, hx, he]⟩
    · have hmem : ∃ l ∈ xs, is_delivery_line l = true := by
        rcases List.mem_cons.mp hl with h | h
        · exact absurd (h ▸ hdel) (by simpa using hx)
        · exact ⟨l, h, hdel⟩
      obtain ⟨e, he⟩ := ih p hmem
      refine ⟨e, ?_⟩
      simp [recalcFold, hx, he]

lemma action_recalculate_error (cfg : ConfigStore) (g : GeoOracle) (r : RoutingOutcome)
    (partner? : Option Partner) (lines : List SOLine) :
    ∃ e, action_recalculate_delivery_cost cfg g r partner? lines = .error e := by
  unfold action_recalculate_delivery_cost
  cases partner? with
  | none => exact ⟨.user .noCustomer, rfl⟩
  | some p =>
    cases hf : lines.filter is_delivery_line with
    | nil => exact ⟨.user .noDeliveryLine, by simp [hf]⟩
    | cons x xs =>
      have hx : x ∈ lines.filter is_delivery_line := by
        rw [hf]; exact List.mem_cons_self x xs
      obtain ⟨e, he⟩ :=
        recalcFold_error cfg g r lines p
          ⟨x, List.mem_of_mem_filter hx, List.of_mem_filter hx⟩
      exact ⟨e, by simp [hf, he]⟩

lemma runRecalc_eq (cfg : ConfigStore) (g : GeoOracle) (r : RoutingOutcome)
    (partner? : Option Partner) (lines : List SOLine) :
    runRecalc cfg g r partner? lines = (lines, partner?) := by
  obtain ⟨e, he⟩ := action_recalculate_error cfg g r partner? lines
  unfold runRecalc
  rw [he]

lemma createLine_fst (cfg : ConfigStore) (g : GeoOracle) (r : RoutingOutcome)
    (partner? : Option Partner) (l : SOLine) :
    (createLine cfg g r partner? l).1 = l := by
  unfold createLine
  by_cases hg : (!is_delivery_line l || l.delivery_cost_calculated) = true
  · rw [if_pos hg]
  · rw [if_neg hg]
    cases partner? with
    | none => rfl
    | some p =>
      rcases hc : calculate_distance_from_origin cfg g r p with ⟨exc, p₁⟩
      cases exc with
      | error e => simp [hc]
      | ok dm => simp [hc, pyMulFloat_asPy]

lemma gps_always_unavailable (cfg : ConfigStore) (g : GeoOracle) (r : RoutingOutcome)
    (o : Order) :
    ∃ p', gps_rate_shipment cfg g r o = .ok (unavailableResult, p') := by
  unfold gps_rate_shipment
  cases ho : o.partner_shipping_id.orElse (fun _ => o.partner_id) with
  | none => exact ⟨none, by simp [ho]⟩
  | some partner =>
    by_cases hq : MAX_ORDER_QUANTITY ≤ totalPhysicalQty o
    · exact ⟨some partner, by simp [ho, hq]⟩
    · simp only [ho, if_neg hq]
      by_cases hc : partner.partner_latitude = 0 ∨ partner.partner_longitude = 0
      · cases g with
        | raises => exact ⟨some partner, by simp [hc]⟩
        | noFix => exact ⟨some partner, by simp [hc]⟩
        | fix la lo =>
          by_cases h0 : la = 0 ∨ lo = 0
          · exact ⟨some partner, by simp [hc, h0]⟩
          · simp only [if_pos hc, if_neg h0]
            rcases hcal : calculate_distance_from_origin cfg (GeoOracle.fix la lo) r
                { partner with partner_latitude := la, partner_longitude := lo } with ⟨exc, p₂⟩
            cases exc with
            | error e => exact ⟨some p₂, by simp [hcal]⟩
            | ok dm => exact ⟨some p₂, by simp [hcal, pyFormat2f_asPy]⟩
      · simp only [if_neg hc]
        rcases hcal : calculate_distance_from_origin cfg g r partner with ⟨exc, p₂⟩
        cases exc with
        | error e => exact ⟨some p₂, by simp [hcal]⟩
        | ok dm => exact ⟨some p₂, by simp [hcal, pyFormat2f_asPy]⟩

end DeliveryCalc

namespace DeliveryCalc

/-- C2: a line whose `delivery_cost_calculated` flag is set (LOCKED) is left
completely untouched by the interactive onchange trigger and by the
programmatic create trigger — for *every* customer state, so no change to
the stored coordinates can influence its price — and the manual
recalculation action is the only operation that may rewrite it; after that
action the flag of a previously locked line is still `true` (the action
either completes with the flag written `true` or aborts leaving state
unchanged; in the current source it always aborts on the tuple
`TypeError`). -/
theorem locked_line_never_recomputed (cfg : ConfigStore) (g : GeoOracle)
    (r : RoutingOutcome) (partner? : Option Partner) (l : SOLine)
    (hl : l.delivery_cost_calculated = true) :
    _onchange_product_delivery_cost cfg g r partner? l = .ok (l, partner?, .nothing) ∧
    createLine cfg g r partner? l = (l, partner?) ∧
    ∀ lines : List SOLine, (runRecalc cfg g r partner? lines).1 = lines := by
  refine ⟨?_, ?_, ?_⟩
  · unfold _onchange_product_delivery_cost
    rw [if_pos (by rw [hl, Bool.or_true])]
  · unfold createLine
    rw [if_pos (by rw [hl, Bool.or_true])]
  · intro lines
    rw [runRecalc_eq]

def lockedLine : SOLine :=
  { product := some { ptype := "service", active := true, pname := "Delivery" }
    price_unit := 42
    delivery_cost_calculated := true }

theorem locked_line_never_recomputed_witness :
    lockedLine.delivery_cost_calculated = true ∧
    _onchange_product_delivery_cost defaultCfg .noFix .requestFailed none lockedLine =
      .ok (lockedLine, none, .nothing) ∧
    createLine defaultCfg .noFix .requestFailed none lockedLine = (lockedLine, none) ∧
    (runRecalc defaultCfg .noFix .requestFailed none [lockedLine]).1 = [lockedLine] := by
  have h := locked_line_never_recomputed defaultCfg .noFix .requestFailed none lockedLine rfl
  exact ⟨rfl, h.1, h.2.1, h.2.2 [lockedLine]⟩

/-- C8: the programmatic create path is a total function (every rejection or
exception raised during pricing is caught inside the loop, so order
creation is never blocked), and it returns exactly the created lines.  In
the current source no line is ever priced on this path — the tuple
multiplication fails first — so in particular every line whose pricing was
attempted and failed keeps its original `price_unit` and its
`delivery_cost_calculated` flag (`false` for fresh lines). -/
theorem create_never_blocks (cfg : ConfigStore) (g : GeoOracle) (r : RoutingOutcome)
    (partner? : Option Partner) (lines : List SOLine) :
    (createLines cfg g r partner? lines).1 = lines := by
  induction lines generalizing partner? with
  | nil => rfl
  | cons l ls ih =>
    simp only [createLines]
    rw [createLine_fst, ih]

/-- C3: the checkout availability computation never raises (it always
produces a result dict) and, whatever the failure — absent partner, total
physical quantity at or above the hard quantity ceiling (the `>=` makes the
boundary exclusive: a quantity equal to the ceiling is already
unavailable), geocoding failure, invalid coordinates, an out-of-range or
failed distance calculation — the result is `unavailableResult`:
`success = false`, `price = 0.0`, and no error or warning message.  (In the
current source every path through the distance step ends unavailable, since
the `f"{distance:.2f}"` debug log raises a caught `TypeError` on the
tuple, so the conclusion holds for *all* inputs.) -/
theorem gps_rate_shipment_silent (cfg : ConfigStore) (g : GeoOracle) (r : RoutingOutcome)
    (o : Order) :
    ∃ p', gps_rate_shipment cfg g r o = .ok (unavailableResult, p') :=
  gps_always_unavailable cfg g r o

/-- C9: `calculate_distance_from_origin` performs no external mutation other
than the geocoding step's coordinate update: the returned customer agrees
with the input on `x_partner_distance` and every other non-coordinate
field, and when both coordinates were already present the customer is
returned exactly as given.  (No price field exists anywhere in its type:
the function cannot write one.) -/
theorem calculate_distance_frame (cfg : ConfigStore) (g : GeoOracle) (r : RoutingOutcome)
    (p : Partner) :
    ((calculate_distance_from_origin cfg g r p).2.x_partner_distance = p.x_partner_distance ∧
      (calculate_distance_from_origin cfg g r p).2.pname = p.pname ∧
      (calculate_distance_from_origin cfg g r p).2.street = p.street ∧
      (calculate_distance_from_origin cfg g r p).2.city = p.city ∧
      (calculate_distance_from_origin cfg g r p).2.zipCode = p.zipCode) ∧
    (p.partner_latitude ≠ 0 → p.partner_longitude ≠ 0 →
      (calculate_distance_from_origin cfg g r p).2 = p) := by
  constructor
  · obtain ⟨h1, h2, h3, h4, h5⟩ := ensureCoords_frame g p
    rw [calculate_partner_eq]
    exact ⟨h5, h1, h2, h3, h4⟩
  · intro hla hlo
    rw [calculate_partner_eq, ensureCoords_of_present g p hla hlo]

def partnerValid : Partner :=
  { pname := "Bob", street := "s", city := "c", zipCode := "z"
    partner_latitude := 38.5, partner_longitude := -82.7, x_partner_distance := 7 }

theorem calculate_distance_frame_witness :
    partnerValid.partner_latitude ≠ 0 ∧ partnerValid.partner_longitude ≠ 0 ∧
    (calculate_distance_from_origin defaultCfg .noFix .requestFailed partnerValid).2 =
      partnerValid ∧
    (calculate_distance_from_origin defaultCfg .noFix
        .requestFailed partnerValid).2.x_partner_distance = partnerValid.x_partner_distance := by
  have h1 : partnerValid.partner_latitude ≠ 0 := by norm_num [partnerValid]
  have h2 : partnerValid.partner_longitude ≠ 0 := by norm_num [partnerValid]
  have h := calculate_distance_frame defaultCfg .noFix .requestFailed partnerValid
  exact ⟨h1, h2, h.2 h1 h2, h.1.1⟩

end DeliveryCalc

namespace DeliveryCalc

/-- C4: with external routing disabled the road distance is exactly
Haversine × road multiplier, and with routing enabled every failure mode of
the lookup — missing API key, failed/timed-out request, malformed response,
non-OK top-level status, non-OK element status — also yields exactly
Haversine × road multiplier.  All embedded functions are total: every
exception path in the source is caught inside `_get_google_maps_distance`,
so nothing propagates to the caller. -/
theorem routing_failure_falls_back (cfg : ConfigStore) (r : RoutingOutcome)
    (olat olon dlat dlon : ℝ) (st el : String) (m : ℝ) :
    ((_get_delivery_settings cfg).use_google_maps = false →
      computeDistanceAndMethod cfg r dlat dlon =
        (_haversine_distance (_get_delivery_settings cfg).origin_lat
            (_get_delivery_settings cfg).origin_lon dlat dlon *
          (_get_delivery_settings cfg).road_multiplier, "haversine")) ∧
    ((_get_delivery_settings cfg).google_api_key = "" →
      _get_google_maps_distance cfg r olat olon dlat dlon =
        _haversine_distance olat olon dlat dlon *
          (_get_delivery_settings cfg).road_multiplier) ∧
    (_get_google_maps_distance cfg .requestFailed olat olon dlat dlon =
      _haversine_distance olat olon dlat dlon *
        (_get_delivery_settings cfg).road_multiplier) ∧
    (_get_google_maps_distance cfg .malformed olat olon dlat dlon =
      _haversine_distance olat olon dlat dlon *
        (_get_delivery_settings cfg).road_multiplier) ∧
    (st ≠ "OK" →
      _get_google_maps_distance cfg (.response st el m) olat olon dlat dlon =
        _haversine_distance olat olon dlat dlon *
          (_get_delivery_settings cfg).road_multiplier) ∧
    (el ≠ "OK" →
      _get_google_maps_distance cfg (.response st el m) olat olon dlat dlon =
        _haversine_distance olat olon dlat dlon *
          (_get_delivery_settings cfg).road_multiplier) := by
  refine ⟨?_, ?_, ?_, ?_, ?_, ?_⟩
  · intro h
    simp [computeDistanceAndMethod, h]
  · intro h
    simp [_get_google_maps_distance, h]
  · simp only [_get_google_maps_distance]
    split <;> rfl
  · simp only [_get_google_maps_distance]
    split <;> rfl
  · intro h
    simp only [_get_google_maps_distance]
    split
    · rfl
    · simp [h]
  · intro h
    simp only [_get_google_maps_distance]
    split
    · rfl
    · by_cases hst : st = "OK"
      · simp [hst, h]
      · simp [hst]

theorem routing_failure_falls_back_witness :
    (_get_delivery_settings defaultCfg).use_google_maps = false ∧
    computeDistanceAndMethod defaultCfg .requestFailed 3 4 =
      (_haversine_distance (_get_delivery_settings defaultCfg).origin_lat
          (_get_delivery_settings defaultCfg).origin_lon 3 4 *
        (_get_delivery_settings defaultCfg).road_multiplier, "haversine") ∧
    ("FAIL" : String) ≠ "OK" ∧
    _get_google_maps_distance defaultCfg (.response "FAIL" "x" 5) 1 2 3 4 =
      _haversine_distance 1 2 3 4 * (_get_delivery_settings defaultCfg).road_multiplier := by
  have h := routing_failure_falls_back defaultCfg .requestFailed 1 2 3 4 "FAIL" "x" 5
  exact ⟨rfl, h.1 rfl, by decide, h.2.2.2.2.1 (by decide)⟩

lemma computeDistanceAndMethod_snd (cfg : ConfigStore) (r : RoutingOutcome)
    (dlat dlon : ℝ) :
    (computeDistanceAndMethod cfg r dlat dlon).2 =
      if (_get_delivery_settings cfg).use_google_maps then "google_maps" else "haversine" := by
  by_cases hc : (_get_delivery_settings cfg).use_google_maps
  · simp [computeDistanceAndMethod, hc]
  · simp [computeDistanceAndMethod, hc]

/-- C10: whenever `calculate_distance_from_origin` succeeds, its value is
the 2-tuple `(distance, method)` — never a bare number — with
`method = 'google_maps'` precisely when the Google Maps setting is enabled
and `'haversine'` otherwise; and every numeric use an in-repo caller makes
of the single variable this tuple is bound to fails with `TypeError`
(`distance * rate_per_mile` in the onchange/create/recalculate triggers,
`f"{distance:.2f}"` and `distance > MAX_DISTANCE_MILES` in the carrier). -/
theorem calc_returns_tagged_pair (cfg : ConfigStore) (g : GeoOracle) (r : RoutingOutcome)
    (p : Partner) (d : ℝ) (m : String)
    (h : (calculate_distance_from_origin cfg g r p).1 = .ok (d, m)) :
    m = (if (_get_delivery_settings cfg).use_google_maps then "google_maps" else "haversine") ∧
    pyMulFloat (asPy (d, m)) (_get_rate_per_mile cfg) = .error .typeError ∧
    pyFormat2f (asPy (d, m)) = .error .typeError ∧
    pyGtFloat (asPy (d, m)) MAX_DISTANCE_MILES = .error .typeError := by
  refine ⟨?_, rfl, rfl, rfl⟩
  unfold calculate_distance_from_origin at h
  rcases he : ensureCoords g p with ⟨exc, p₁⟩
  rw [he] at h
  cases exc with
  | error e => simp at h
  | ok q =>
    dsimp only at h
    cases hv : _validate_coordinates p₁.partner_latitude p₁.partner_longitude with
    | some verr =>
      rw [hv] at h
      simp at h
    | none =>
      rw [hv] at h
      dsimp only at h
      split at h
      · simp at h
      · simp only [Except.ok.injEq] at h
        have h2 : (computeDistanceAndMethod cfg r p₁.partner_latitude p₁.partner_longitude).2
            = m := by rw [h]
        rw [← h2, computeDistanceAndMethod_snd]

def cfgGoogle : ConfigStore := { use_google_maps := true, google_api_key := "k" }

/-- A Google Distance Matrix success whose meter value converts to exactly
`mi` miles. -/
noncomputable def routeMeters (mi : ℝ) : RoutingOutcome :=
  .response "OK" "OK" (mi / 0.000621371)

lemma compute_google_eval (mi a b : ℝ) :
    computeDistanceAndMethod cfgGoogle (routeMeters mi) a b = (mi, "google_maps") := by
  unfold computeDistanceAndMethod _get_google_maps_distance routeMeters
  have hkey : ¬((_get_delivery_settings cfgGoogle).google_api_key = "") := by
    simp [_get_delivery_settings, cfgGoogle]
  have huse : (_get_delivery_settings cfgGoogle).use_google_maps = true := rfl
  rw [if_pos huse]
  simp only [hkey, if_false, if_neg hkey, if_true]
  rw [div_mul_cancel₀ mi (by norm_num : ((0.000621371 : ℝ)) ≠ 0)]

lemma validate_partnerValid :
    _validate_coordinates partnerValid.partner_latitude partnerValid.partner_longitude
      = none := by
  unfold _validate_coordinates
  rw [if_neg (by norm_num [partnerValid]),
    if_neg (by norm_num [partnerValid, abs_le]),
    if_neg (by norm_num [partnerValid]), if_neg (by norm_num [partnerValid])]

lemma calc_google_eval (mi : ℝ) :
    calculate_distance_from_origin cfgGoogle .noFix (routeMeters mi) partnerValid =
      (if (75:ℝ) < mi then .error (.outOfRange mi 75) else .ok (mi, "google_maps"),
        partnerValid) := by
  unfold calculate_distance_from_origin
  rw [ensureCoords_of_present GeoOracle.noFix partnerValid (by norm_num [partnerValid])
    (by norm_num [partnerValid])]
  dsimp only
  rw [validate_partnerValid]
  dsimp only
  rw [compute_google_eval]
  have hmax : (_get_delivery_settings cfgGoogle).max_distance = 75 := by
    norm_num [_get_delivery_settings, cfgGoogle]
  rw [hmax]
  dsimp only
  split_ifs with hb <;> rfl

def freshDeliveryLine : SOLine :=
  { product := some { ptype := "service", active := true, pname := "Delivery" }
    price_unit := 0
    delivery_cost_calculated := false }

/-- C1 (code defect): for a customer whose validated coordinates put the
road distance at exactly 10 miles with the default 2.5 rate, the claimed
`Priced{totalCost = 25.0}` never materialises: the distance step returns
the tuple `(10, 'google_maps')` and the onchange's `distance *
rate_per_mile` raises `TypeError`, which its handler re-raises as the
generic "unexpected error" `UserError`, writing no price.  (The rejection
half of the claim does hold: at 76 miles against the 75-mile ceiling the
calculation raises the out-of-range error with both numbers in it.) -/
theorem pricing_tuple_type_error :
    calculate_distance_from_origin cfgGoogle .noFix (routeMeters 10) partnerValid =
      (.ok (10, "google_maps"), partnerValid) ∧
    _onchange_product_delivery_cost cfgGoogle .noFix (routeMeters 10) (some partnerValid)
      freshDeliveryLine = .error .unexpectedOnchange ∧
    (calculate_distance_from_origin cfgGoogle .noFix (routeMeters 76) partnerValid).1 =
      .error (.outOfRange 76 75) := by
  have h10 : calculate_distance_from_origin cfgGoogle .noFix (routeMeters 10) partnerValid =
      (.ok (10, "google_maps"), partnerValid) := by
    rw [calc_google_eval]
    norm_num
  have h76 : calculate_distance_from_origin cfgGoogle .noFix (routeMeters 76) partnerValid =
      (.error (.outOfRange 76 75), partnerValid) := by
    rw [calc_google_eval]
    norm_num
  refine ⟨h10, ?_, by rw [h76]⟩
  unfold _onchange_product_delivery_cost
  rw [if_neg (by decide)]
  dsimp only
  rw [h10]
  simp [pyMulFloat_asPy]

theorem calc_returns_tagged_pair_witness :
    (calculate_distance_from_origin cfgGoogle .noFix (routeMeters 10) partnerValid).1 =
      .ok (10, "google_maps") ∧
    ("google_maps" =
      if (_get_delivery_settings cfgGoogle).use_google_maps then "google_maps"
      else "haversine") ∧
    pyMulFloat (asPy (10, "google_maps")) (_get_rate_per_mile cfgGoogle) =
      .error .typeError := by
  have h : (calculate_distance_from_origin cfgGoogle .noFix (routeMeters 10)
      partnerValid).1 = .ok (10, "google_maps") := by
    rw [calc_google_eval]
    norm_num
  have h2 := calc_returns_tagged_pair cfgGoogle .noFix (routeMeters 10) partnerValid 10
    "google_maps" h
  exact ⟨h, h2.1, h2.2.1⟩

end DeliveryCalc

namespace DeliveryCalc

/-- C7 (amended): the checkout availability computation takes its ceilings
from the hard-coded module constants of `delivery_carrier.py`
(`MAX_ORDER_QUANTITY = 8`, `MAX_DISTANCE_MILES = 60.0`): its behaviour is
invariant under arbitrary changes to the persisted carrier configuration
keys (`delivery_cost_calculator.max_order_quantity` and
`delivery_cost_calculator.gps_carrier_max_distance`), which it never reads,
and any order whose physical quantity reaches the constant `8` is
unavailable before any geocoding or distance work is attempted. -/
theorem carrier_ignores_config_ceilings (cfg : ConfigStore) (q : ℤ) (d : ℝ)
    (g : GeoOracle) (r : RoutingOutcome) (o : Order) :
    gps_rate_shipment { cfg with max_order_quantity := q, gps_carrier_max_distance := d }
        g r o = gps_rate_shipment cfg g r o ∧
    (∀ p, o.partner_shipping_id.orElse (fun _ => o.partner_id) = some p →
      MAX_ORDER_QUANTITY ≤ totalPhysicalQty o →
      gps_rate_shipment cfg g r o = .ok (unavailableResult, some p)) := by
  constructor
  · rfl
  · intro p hp hq
    simp [gps_rate_shipment, hp, hq]

def physLine8 : CarrierLine := { ptype := "product", product_uom_qty := 8 }

def partnerNoCoords : Partner :=
  { pname := "Ann", street := "s", city := "c", zipCode := "z"
    partner_latitude := 0, partner_longitude := 0, x_partner_distance := 0 }

def qty8Order : Order :=
  { partner_id := none, partner_shipping_id := some partnerNoCoords
    lines := [physLine8] }

lemma qty8Order_total : MAX_ORDER_QUANTITY ≤ totalPhysicalQty qty8Order := by
  norm_num [MAX_ORDER_QUANTITY, totalPhysicalQty, qty8Order, physLine8]

theorem carrier_ignores_config_ceilings_witness :
    qty8Order.partner_shipping_id.orElse (fun _ => qty8Order.partner_id) =
      some partnerNoCoords ∧
    MAX_ORDER_QUANTITY ≤ totalPhysicalQty qty8Order ∧
    gps_rate_shipment defaultCfg .noFix .requestFailed qty8Order =
      .ok (unavailableResult, some partnerNoCoords) := by
  exact ⟨rfl, qty8Order_total,
    (carrier_ignores_config_ceilings defaultCfg 0 0 .noFix .requestFailed qty8Order).2
      partnerNoCoords rfl qty8Order_total⟩

def cfgBigQty : ConfigStore := { max_order_quantity := 100 }

def partnerGeocodedBad : Partner :=
  { partnerNoCoords with partner_latitude := 2000, partner_longitude := 3000 }

lemma calc_bad_coords :
    calculate_distance_from_origin cfgBigQty (.fix 2000 3000) .requestFailed
        partnerGeocodedBad =
      (.error (.invalidCoordinates .impossiblyLarge 2000 3000), partnerGeocodedBad) := by
  unfold calculate_distance_from_origin
  rw [ensureCoords_of_present (GeoOracle.fix 2000 3000) partnerGeocodedBad
    (by norm_num [partnerGeocodedBad, partnerNoCoords])
    (by norm_num [partnerGeocodedBad, partnerNoCoords])]
  have hval : _validate_coordinates partnerGeocodedBad.partner_latitude
      partnerGeocodedBad.partner_longitude = some .impossiblyLarge := by
    unfold _validate_coordinates
    rw [if_neg (by norm_num [partnerGeocodedBad, partnerNoCoords]),
      if_pos (by norm_num [partnerGeocodedBad, partnerNoCoords, abs_le])]
  dsimp only
  rw [hval]
  norm_num [partnerGeocodedBad, partnerNoCoords]

/-- C7 (counterexample): with the persisted carrier quantity ceiling raised
to 100, an order of 8 physical units is still rejected at the hard-coded
quantity gate (no geocoding is even attempted, the customer is returned
untouched), whereas the computation the claim describes — using the
configuration values — would proceed past the quantity gate and geocode the
customer; the two computations leave the customer in observably different
states. -/
theorem carrier_config_counterexample :
    gps_rate_shipment cfgBigQty (.fix 2000 3000) .requestFailed qty8Order =
      .ok (unavailableResult, some partnerNoCoords) ∧
    gps_rate_shipment_specCeilings cfgBigQty (.fix 2000 3000) .requestFailed qty8Order =
      .ok (unavailableResult, some partnerGeocodedBad) ∧
    partnerNoCoords ≠ partnerGeocodedBad := by
  refine ⟨?_, ?_, ?_⟩
  · have hq : MAX_ORDER_QUANTITY ≤ totalPhysicalQty qty8Order := qty8Order_total
    unfold gps_rate_shipment
    rw [show qty8Order.partner_shipping_id.orElse (fun _ => qty8Order.partner_id) =
      some partnerNoCoords from rfl]
    dsimp only
    rw [if_pos hq]
  · have hq : ¬((cfgBigQty.max_order_quantity : ℝ) ≤ totalPhysicalQty qty8Order) := by
      norm_num [cfgBigQty, totalPhysicalQty, qty8Order, physLine8]
    have hzero : partnerNoCoords.partner_latitude = 0 ∨
        partnerNoCoords.partner_longitude = 0 := by
      left
      norm_num [partnerNoCoords]
    have hfix : ¬((2000:ℝ) = 0 ∨ (3000:ℝ) = 0) := by norm_num
    unfold gps_rate_shipment_specCeilings
    rw [show qty8Order.partner_shipping_id.orElse (fun _ => qty8Order.partner_id) =
      some partnerNoCoords from rfl]
    dsimp only
    rw [if_neg hq, if_pos hzero]
    rw [if_neg hfix]
    have hpg : ({ pname := partnerNoCoords.pname, street := partnerNoCoords.street, city := partnerNoCoords.city, zipCode := partnerNoCoords.zipCode, partner_latitude := (2000:ℝ), partner_longitude := (3000:ℝ), x_partner_distance := partnerNoCoords.x_partner_distance } : Partner) = partnerGeocodedBad := rfl
    rw [hpg]
    dsimp only
    rw [calc_bad_coords]
  · intro h
    have h2 := congrArg Partner.partner_latitude h
    norm_num [partnerNoCoords, partnerGeocodedBad] at h2

end DeliveryCalc
